import Mathlib

/-!
Verification of the MinIO-Learn storage gateway.

This development shallowly embeds the Go sources of the repository:
`cmd/server/main.go` (HTTP handlers, gateway methods, config loading) and
`internal/storage/minio.go` (the storage service methods; its
`CheckObjectExists` is logically identical to `checkObjectExists` in
`main.go`, and both are embedded by one definition here).

Backend effects (MinIO client calls, temp-file IO, multipart parsing) are
modelled by passing their outcomes explicitly: a `Backend` record holds the
result each client call would return, a `Request` record holds the parsed
pieces of the inbound HTTP request together with the outcomes of the local
OS operations the upload handler performs. Each handler returns the HTTP
output it produces together with the ordered list of gateway/backend calls
it issued, so that claims about which calls happen (or never happen) are
expressible.
-/

namespace Gateway

/-- A backend error as seen through `minio.ToErrorResponse`: an S3 error
code plus the error text (`err.Error()` in Go). A transport error that is
not an S3 `ErrorResponse` is modelled by an empty `code`. -/
structure ErrorResponse where
  code : String
  msg : String
deriving DecidableEq, Repr

/-- Object metadata as returned by the MinIO client's list operation
(the fields `main.go` actually reads: `Key`, `Size`, `ContentType`,
`LastModified`). Timestamps are modelled as integers. -/
structure ObjectInfo where
  key : String
  size : Int
  contentType : String
  lastModified : Int
deriving DecidableEq, Repr

/-- The part of `minio.UploadInfo` the handler reads (`Size`). -/
structure UploadInfo where
  size : Int
deriving DecidableEq, Repr

/-- `FileInfo` from `main.go`: the response-facing file descriptor.
`url = ""` models the omitted (`omitempty`) URL field. -/
structure FileInfo where
  fileName : String
  size : Int
  contentType : String
  url : String
  uploadedAt : Int
deriving DecidableEq, Repr

/-- The `data` field of the JSON response envelope. -/
inductive RData where
  | null : RData
  | file : FileInfo → RData
  | files : List FileInfo → RData
deriving DecidableEq, Repr

/-- The `Response` envelope from `main.go`: `{success, message, data}`. -/
structure Envelope where
  success : Bool
  message : String
  data : RData
deriving DecidableEq, Repr

/-- What a handler writes back: a JSON envelope with a status code
(`sendResponse`), an HTTP redirect (`http.Redirect`), raw bytes with an
attachment filename (the `download=true` branch), or the mux's default
not-found page when no registered route matches. -/
inductive HttpOut where
  | json : Envelope → Nat → HttpOut
  | redirect : String → Nat → HttpOut
  | raw : List Nat → String → Nat → HttpOut
  | muxNotFound : HttpOut
deriving DecidableEq, Repr

/-- `sendResponse` from `main.go`: build the JSON envelope with a status. -/
def sendResponse (success : Bool) (message : String) (data : RData)
    (status : Nat) : HttpOut :=
  HttpOut.json ⟨success, message, data⟩ status

/-- One call issued by a handler against the gateway / object store:
`StatObject`, `PutObject`, `GetObject`, `ListObjects`,
`PresignedGetObject`, `RemoveObject`. -/
inductive GatewayCall where
  | statCall : String → GatewayCall
  | putCall : String → String → GatewayCall
  | getCall : String → GatewayCall
  | listCall : String → GatewayCall
  | presignCall : String → GatewayCall
  | deleteCall : String → GatewayCall
deriving DecidableEq, Repr

/-- The outcomes the MinIO client would return for each call a handler can
make, keyed by object name / prefix where the handlers vary them. -/
structure Backend where
  statObject : String → Except ErrorResponse Unit
  putObject : String → String → Except String UploadInfo
  getObject : String → Except String (List Nat)
  listObjects : String → Except String (List ObjectInfo)
  presignedGet : String → Except String String

/-! ### Gateway service methods (`MinIOService` wrappers) -/

/-- `checkObjectExists` from `main.go` (identically
`CheckObjectExists` in `internal/storage/minio.go`): stat the object;
a `NoSuchKey` error yields `(false, nil)`, any other error is wrapped and
returned, success yields `(true, nil)`. -/
def checkObjectExists (statResult : Except ErrorResponse Unit) :
    Except String Bool :=
  match statResult with
  | Except.error e =>
      if e.code = "NoSuchKey" then Except.ok false
      else Except.error ("failed to check if object exists: " ++ e.msg)
  | Except.ok _ => Except.ok true

/-- `getObjectURL` from `main.go`: wrap a presign failure. -/
def getObjectURL (presignResult : Except String String) :
    Except String String :=
  match presignResult with
  | Except.error e => Except.error ("failed to generate presigned URL: " ++ e)
  | Except.ok u => Except.ok u

/-- `uploadFile` from `main.go`, from the point where the temp file is
open and statted: wrap a `PutObject` failure. -/
def uploadFile (putResult : Except String UploadInfo) :
    Except String UploadInfo :=
  match putResult with
  | Except.error e => Except.error ("failed to upload file: " ++ e)
  | Except.ok info => Except.ok info

/-- `listObjects` from `main.go`: drain the listing; any error on the
channel is wrapped and returned. -/
def listObjectsSvc (listResult : Except String (List ObjectInfo)) :
    Except String (List ObjectInfo) :=
  match listResult with
  | Except.error e => Except.error ("error listing objects: " ++ e)
  | Except.ok objs => Except.ok objs

/-- `downloadBuffer` from `main.go`: read the whole object; a failure of
`GetObject` (or of reading the stream) is wrapped and returned. -/
def downloadBuffer (getResult : Except String (List Nat)) :
    Except String (List Nat) :=
  match getResult with
  | Except.error e => Except.error ("failed to get object: " ++ e)
  | Except.ok data => Except.ok data

/-- `deleteObject` from `main.go` (identically `DeleteObject` in
`internal/storage/minio.go`): remove the object, wrapping any failure. -/
def deleteObject (removeResult : Except String Unit) : Except String Unit :=
  match removeResult with
  | Except.error e => Except.error ("failed to delete object: " ++ e)
  | Except.ok _ => Except.ok ()

/-! ### filepath.Base -/

/-- Trailing path separators, as trimmed by Go's `filepath.Base`. -/
def dropTrailingSeps (l : List Char) : List Char :=
  (l.reverse.dropWhile (fun c => c = '/')).reverse

/-- The suffix after the last `/`, as kept by Go's `filepath.Base`. -/
def lastComponent (l : List Char) : List Char :=
  (l.reverse.takeWhile (fun c => c ≠ '/')).reverse

/-- Go's `filepath.Base` (unix separators): `""` gives `"."`, trailing
separators are trimmed, everything up to the final separator is removed,
and an all-separator path gives `"/"`. -/
def filepathBase (path : String) : String :=
  if path = "" then "."
  else
    let trimmed := dropTrailingSeps path.toList
    let base := lastComponent trimmed
    if base = [] then "/" else String.mk base

example : filepathBase "uploads/a.txt" = "a.txt" := by decide
example : filepathBase "" = "." := by decide
example : filepathBase "///" = "/" := by decide
example : filepathBase "uploads/" = "uploads" := by decide

/-! ### HTTP requests and handlers -/

/-- The multipart file part the upload handler extracts: original filename
(`handler.Filename`) and the part's `Content-Type` header (possibly empty). -/
structure FormFile where
  filename : String
  contentType : String
deriving DecidableEq, Repr

/-- An inbound HTTP request as the handlers see it, together with the
outcomes of the local OS operations the upload handler performs.
`queryPfx` and `queryDownload` are `r.URL.Query().Get(...)` results (`""`
when the parameter is absent). `formFile` is the outcome of
`r.FormFile("file")`. `nowUnix` is `time.Now().Unix()` at key-derivation
time; `nowStamp` the timestamp taken when building the response. -/
structure Request where
  method : String
  path : String
  queryPfx : String
  queryDownload : String
  formFile : Except String FormFile
  tempCreate : Except String Unit
  tempCopy : Except String Unit
  nowUnix : Int
  nowStamp : Int

/-- Key derivation in the upload handler:
`fmt.Sprintf("uploads/%d-%s", time.Now().Unix(), handler.Filename)`. -/
def deriveObjectName (nowUnix : Int) (filename : String) : String :=
  "uploads/" ++ toString nowUnix ++ "-" ++ filename

/-- Content-type resolution in the upload handler: the part header,
defaulting to `application/octet-stream` when empty. -/
def resolveContentType (partCT : String) : String :=
  if partCT = "" then "application/octet-stream" else partCT

/-- `uploadHandler` from `main.go`. Method gate, form extraction, temp
file creation and copy, `uploadFile`, then best-effort `getObjectURL`
whose failure only blanks the URL of the returned descriptor. -/
def uploadHandler (r : Request) (b : Backend) :
    HttpOut × List GatewayCall :=
  if r.method ≠ "POST" then
    (sendResponse false "Method not allowed" RData.null 405, [])
  else
    match r.formFile with
    | Except.error e =>
        (sendResponse false ("Error retrieving file: " ++ e) RData.null 400, [])
    | Except.ok ff =>
      match r.tempCreate with
      | Except.error e =>
          (sendResponse false ("Error creating temporary file: " ++ e)
            RData.null 500, [])
      | Except.ok _ =>
        match r.tempCopy with
        | Except.error e =>
            (sendResponse false ("Error saving temporary file: " ++ e)
              RData.null 500, [])
        | Except.ok _ =>
          let objectName := deriveObjectName r.nowUnix ff.filename
          let contentType := resolveContentType ff.contentType
          match uploadFile (b.putObject objectName contentType) with
          | Except.error e =>
              (sendResponse false ("Error uploading to MinIO: " ++ e)
                RData.null 500, [GatewayCall.putCall objectName contentType])
          | Except.ok info =>
            let url :=
              match getObjectURL (b.presignedGet objectName) with
              | Except.error _ => ""
              | Except.ok u => u
            (sendResponse true "File uploaded successfully"
              (RData.file ⟨ff.filename, info.size, contentType, url, r.nowStamp⟩)
              200,
             [GatewayCall.putCall objectName contentType,
              GatewayCall.presignCall objectName])

/-- The prefix the list handler passes to `listObjects`: the `prefix`
query parameter, defaulting to `uploads/` when it is empty/absent. -/
def effectivePfx (queryPfx : String) : String :=
  if queryPfx = "" then "uploads/" else queryPfx

/-- One entry of the list handler's response: base name, size, content
type, last-modified, and a best-effort presigned URL whose failure is
discarded (`url, _ := ...`), leaving the URL empty. -/
def listItem (b : Backend) (o : ObjectInfo) : FileInfo :=
  let url :=
    match getObjectURL (b.presignedGet o.key) with
    | Except.error _ => ""
    | Except.ok u => u
  ⟨filepathBase o.key, o.size, o.contentType, url, o.lastModified⟩

/-- `listFilesHandler` from `main.go`. -/
def listFilesHandler (r : Request) (b : Backend) :
    HttpOut × List GatewayCall :=
  if r.method ≠ "GET" then
    (sendResponse false "Method not allowed" RData.null 405, [])
  else
    let pfx := effectivePfx r.queryPfx
    match listObjectsSvc (b.listObjects pfx) with
    | Except.error e =>
        (sendResponse false ("Error listing files: " ++ e) RData.null 500,
         [GatewayCall.listCall pfx])
    | Except.ok objs =>
        (sendResponse true ("Found " ++ toString objs.length ++ " files")
          (RData.files (objs.map (listItem b))) 200,
         GatewayCall.listCall pfx ::
           objs.map (fun o => GatewayCall.presignCall o.key))

/-- `getFileHandler` from `main.go`. The object name is the request path
after the 7-character route pattern `/files/`
(`r.URL.Path[len("/files/"):]`). -/
def getFileHandler (r : Request) (b : Backend) :
    HttpOut × List GatewayCall :=
  if r.method ≠ "GET" then
    (sendResponse false "Method not allowed" RData.null 405, [])
  else
    let objectName := r.path.drop 7
    if objectName = "" then
      (sendResponse false "Object name is required" RData.null 400, [])
    else
      match checkObjectExists (b.statObject objectName) with
      | Except.error e =>
          (sendResponse false ("Error checking object: " ++ e) RData.null 500,
           [GatewayCall.statCall objectName])
      | Except.ok false =>
          (sendResponse false "File not found" RData.null 404,
           [GatewayCall.statCall objectName])
      | Except.ok true =>
        if r.queryDownload = "true" then
          match downloadBuffer (b.getObject objectName) with
          | Except.error e =>
              (sendResponse false ("Error downloading file: " ++ e)
                RData.null 500,
               [GatewayCall.statCall objectName,
                GatewayCall.getCall objectName])
          | Except.ok data =>
              (HttpOut.raw data (filepathBase objectName) 200,
               [GatewayCall.statCall objectName,
                GatewayCall.getCall objectName])
        else
          match getObjectURL (b.presignedGet objectName) with
          | Except.error e =>
              (sendResponse false ("Error generating URL: " ++ e)
                RData.null 500,
               [GatewayCall.statCall objectName,
                GatewayCall.presignCall objectName])
          | Except.ok url =>
              (HttpOut.redirect url 302,
               [GatewayCall.statCall objectName,
                GatewayCall.presignCall objectName])

/-- `healthCheckHandler` from `main.go`. -/
def healthCheckHandler (_r : Request) (b : Backend) :
    HttpOut × List GatewayCall :=
  match listObjectsSvc (b.listObjects "") with
  | Except.error e =>
      (sendResponse false ("MinIO service is not healthy: " ++ e)
        RData.null 503, [GatewayCall.listCall ""])
  | Except.ok _ =>
      (sendResponse true "Service is healthy" RData.null 200,
       [GatewayCall.listCall ""])

/-- The handler a path dispatches to, per the four `http.HandleFunc`
registrations in `main`: exact patterns `/upload`, `/files`, `/health`,
and the subtree pattern `/files/`; anything else falls through to the
mux's not-found handler. -/
inductive RouteTarget where
  | upload : RouteTarget
  | files : RouteTarget
  | filesSubtree : RouteTarget
  | health : RouteTarget
  | unmatched : RouteTarget
deriving DecidableEq, Repr

/-- `http.ServeMux` dispatch over the registered patterns. -/
def route (path : String) : RouteTarget :=
  if path = "/upload" then RouteTarget.upload
  else if path = "/files" then RouteTarget.files
  else if String.isPrefixOf "/files/" path then RouteTarget.filesSubtree
  else if path = "/health" then RouteTarget.health
  else RouteTarget.unmatched

/-- The whole HTTP surface: dispatch a request to the registered handler
(or the default not-found page) and run it. -/
def serve (r : Request) (b : Backend) : HttpOut × List GatewayCall :=
  match route r.path with
  | RouteTarget.upload => uploadHandler r b
  | RouteTarget.files => listFilesHandler r b
  | RouteTarget.filesSubtree => getFileHandler r b
  | RouteTarget.health => healthCheckHandler r b
  | RouteTarget.unmatched => (HttpOut.muxNotFound, [])

/-! ### Configuration loading and startup -/

/-- The process environment: `os.Getenv`, returning `""` for unset keys. -/
abbrev Env := String → String

/-- `getEnv` from `main.go` / the config package. -/
def getEnv (env : Env) (key defaultValue : String) : String :=
  let value := env key
  if value = "" then defaultValue else value

/-- Go's `strconv.ParseBool`: the twelve accepted literals; anything else
is a syntax error, modelled as `none`. -/
def parseBool (str : String) : Option Bool :=
  match str with
  | "1" | "t" | "T" | "true" | "TRUE" | "True" => some true
  | "0" | "f" | "F" | "false" | "FALSE" | "False" => some false
  | _ => none

/-- `getEnvBool` from `main.go` / the config package: unset yields the
default, an unparseable value also yields the default, a parseable value
overrides it. -/
def getEnvBool (env : Env) (key : String) (defaultValue : Bool) : Bool :=
  let value := env key
  if value = "" then defaultValue
  else
    match parseBool value with
    | none => defaultValue
    | some b => b

/-- `MinIOConfig` from `main.go` (identically `Config` in the storage
package and `MinIOConfig` in the config package). -/
structure MinIOConfig where
  endpoint : String
  accessKeyID : String
  secretAccessKey : String
  useSSL : Bool
  bucketName : String
  location : String
deriving DecidableEq, Repr

/-- The struct-literal part of `loadMinIOConfig`: resolve every field from
the environment with its documented default. -/
def resolveMinIOConfig (env : Env) : MinIOConfig :=
  { endpoint := getEnv env "MINIO_ENDPOINT" "localhost:9000"
    accessKeyID := getEnv env "MINIO_ACCESS_KEY" "minio_admin"
    secretAccessKey := getEnv env "MINIO_SECRET_KEY" "minio_password"
    useSSL := getEnvBool env "MINIO_USE_SSL" false
    bucketName := getEnv env "MINIO_BUCKET" "mybucket"
    location := getEnv env "MINIO_LOCATION" "us-east-1" }

/-- The validation chain of `loadMinIOConfig`: reject an empty endpoint,
access key, secret key or bucket name, in that order. -/
def validateMinIOConfig (config : MinIOConfig) : Except String MinIOConfig :=
  if config.endpoint = "" then Except.error "MINIO_ENDPOINT is required"
  else if config.accessKeyID = "" then Except.error "MINIO_ACCESS_KEY is required"
  else if config.secretAccessKey = "" then Except.error "MINIO_SECRET_KEY is required"
  else if config.bucketName = "" then Except.error "MINIO_BUCKET is required"
  else Except.ok config

/-- `loadMinIOConfig` from `main.go` (identically `LoadMinIOConfig` in the
config package): resolve, then validate. -/
def loadMinIOConfig (env : Env) : Except String MinIOConfig :=
  validateMinIOConfig (resolveMinIOConfig env)

/-- How `main` ends its startup phase: `log.Fatalf` (process exit) or
reaching the serving loop. -/
inductive StartupOutcome where
  | fatalExit : String → StartupOutcome
  | serving : MinIOConfig → StartupOutcome
deriving DecidableEq, Repr

/-- The startup sequence of `main` after the config struct is resolved:
a validation error is fatal (`log.Fatalf("Failed to load MinIO
configuration: %v", err)`), then `newMinIOService` (client init +
`ensureBucket`, outcome passed in as `svcInit`) is fatal on error. -/
def mainStartupWith (config : MinIOConfig) (svcInit : Except String Unit) :
    StartupOutcome :=
  match validateMinIOConfig config with
  | Except.error e =>
      StartupOutcome.fatalExit ("Failed to load MinIO configuration: " ++ e)
  | Except.ok cfg =>
    match svcInit with
    | Except.error e =>
        StartupOutcome.fatalExit ("Failed to initialize MinIO service: " ++ e)
    | Except.ok _ => StartupOutcome.serving cfg

/-- `main`'s startup from the raw environment. -/
def mainStartup (env : Env) (svcInit : Except String Unit) : StartupOutcome :=
  mainStartupWith (resolveMinIOConfig env) svcInit

/-! ### Bucket provisioning -/

/-- The two client calls `ensureBucket` can make. -/
inductive BucketCall where
  | existsCall : BucketCall
  | makeCall : BucketCall
deriving DecidableEq, Repr

/-- `ensureBucket` from `main.go` (identically `EnsureBucket` in the
storage package): check existence; on check failure wrap and return; when
absent, create (wrapping a creation failure); when present, do nothing.
Returns the outcome together with the client calls made, in order. -/
def ensureBucket (existsResult : Except String Bool)
    (makeResult : Except String Unit) :
    Except String Unit × List BucketCall :=
  match existsResult with
  | Except.error e =>
      (Except.error ("failed to check if bucket exists: " ++ e),
       [BucketCall.existsCall])
  | Except.ok true => (Except.ok (), [BucketCall.existsCall])
  | Except.ok false =>
    match makeResult with
    | Except.error e =>
        (Except.error ("failed to create bucket: " ++ e),
         [BucketCall.existsCall, BucketCall.makeCall])
    | Except.ok _ =>
        (Except.ok (), [BucketCall.existsCall, BucketCall.makeCall])

/-- One `ensureBucket` run against an honest backend holding bucket state
`s` (the existence check reports `s`, creation succeeds): the bucket
exists afterwards exactly when it existed before or a creation call was
made. -/
def ensureBucketStep (s : Bool) : Bool :=
  s || (ensureBucket (Except.ok s) (Except.ok ())).2.contains BucketCall.makeCall

/-- `n` successive `ensureBucket` runs against the honest backend. -/
def ensureBucketIter : Nat → Bool → Bool
  | 0, s => s
  | Nat.succ n, s => ensureBucketIter n (ensureBucketStep s)

/-! ## Theorems -/

/-- Claim C2: `checkObjectExists` returns `false` with no error exactly
when the backend stat reports a not-found condition (`NoSuchKey`), and
fails with a wrapped error for every other backend failure. -/
theorem checkObjectExists_not_found_iff (statResult : Except ErrorResponse Unit) :
    (checkObjectExists statResult = Except.ok false ↔
      ∃ e, statResult = Except.error e ∧ e.code = "NoSuchKey")
    ∧ ∀ e, statResult = Except.error e → e.code ≠ "NoSuchKey" →
        checkObjectExists statResult =
          Except.error ("failed to check if object exists: " ++ e.msg) := by
  cases statResult with
  | error e =>
      refine ⟨⟨fun h => ⟨e, rfl, ?_⟩, ?_⟩, ?_⟩
      · by_contra hc
        simp [checkObjectExists, hc] at h
      · rintro ⟨e2, he2, hcode⟩
        injection he2 with h
        subst h
        simp [checkObjectExists, hcode]
      · intro e2 he2 hne
        injection he2 with h
        subst h
        simp [checkObjectExists, hne]
  | ok u =>
      refine ⟨⟨fun h => ?_, ?_⟩, ?_⟩
      · simp [checkObjectExists] at h
      · rintro ⟨e2, he2, _⟩
        exact absurd he2 (by simp)
      · intro e2 he2
        exact absurd he2 (by simp)

/-- Evaluation of claim C2's theorem at concrete stat outcomes: a
`NoSuchKey` error yields `ok false`, and a non-`NoSuchKey` error yields
the wrapped failure. -/
theorem checkObjectExists_not_found_iff_eval :
    checkObjectExists (Except.error ⟨"NoSuchKey", "no such key"⟩) = Except.ok false
    ∧ checkObjectExists (Except.error ⟨"AccessDenied", "denied"⟩) =
        Except.error ("failed to check if object exists: " ++ "denied") :=
  ⟨(checkObjectExists_not_found_iff
      (Except.error ⟨"NoSuchKey", "no such key"⟩)).1.2
      ⟨⟨"NoSuchKey", "no such key"⟩, rfl, rfl⟩,
   (checkObjectExists_not_found_iff
      (Except.error ⟨"AccessDenied", "denied"⟩)).2
      ⟨"AccessDenied", "denied"⟩ rfl (by decide)⟩

/-- Claim C10: a boolean environment variable that is set but not
parseable silently yields the default, and the result differs from the
default only when the value parses as a boolean. -/
theorem getEnvBool_unparseable_yields_default (env : Env) (key : String)
    (d : Bool) :
    (env key ≠ "" → parseBool (env key) = none → getEnvBool env key d = d)
    ∧ (getEnvBool env key d ≠ d →
        parseBool (env key) = some (getEnvBool env key d)) := by
  constructor
  · intro hset hbad
    simp [getEnvBool, hset, hbad]
  · intro hne
    by_cases h0 : env key = ""
    · simp [getEnvBool, h0] at hne
    · cases hp : parseBool (env key) with
      | none => simp [getEnvBool, h0, hp] at hne
      | some b => simp [getEnvBool, h0, hp]

/-- Evaluation of claim C10's theorem: `MINIO_USE_SSL=yes` (unparseable)
leaves the default `false` in place. -/
theorem getEnvBool_unparseable_yields_default_eval :
    getEnvBool (fun k => if k = "MINIO_USE_SSL" then "yes" else "")
      "MINIO_USE_SSL" false = false :=
  (getEnvBool_unparseable_yields_default
      (fun k => if k = "MINIO_USE_SSL" then "yes" else "")
      "MINIO_USE_SSL" false).1 (by decide) (by decide)

/-- Claim C6: a configuration whose endpoint, access key, secret key or
bucket name is empty is rejected by the loader's validation, and `main`
then exits fatally before serving. -/
theorem emptyConfig_fatal_startup (config : MinIOConfig)
    (svcInit : Except String Unit)
    (h : config.endpoint = "" ∨ config.accessKeyID = "" ∨
         config.secretAccessKey = "" ∨ config.bucketName = "") :
    ∃ msg, validateMinIOConfig config = Except.error msg ∧
      mainStartupWith config svcInit =
        StartupOutcome.fatalExit ("Failed to load MinIO configuration: " ++ msg) := by
  by_cases h1 : config.endpoint = ""
  · exact ⟨"MINIO_ENDPOINT is required",
      by simp [validateMinIOConfig, h1],
      by simp [mainStartupWith, validateMinIOConfig, h1]⟩
  · by_cases h2 : config.accessKeyID = ""
    · exact ⟨"MINIO_ACCESS_KEY is required",
        by simp [validateMinIOConfig, h1, h2],
        by simp [mainStartupWith, validateMinIOConfig, h1, h2]⟩
    · by_cases h3 : config.secretAccessKey = ""
      · exact ⟨"MINIO_SECRET_KEY is required",
          by simp [validateMinIOConfig, h1, h2, h3],
          by simp [mainStartupWith, validateMinIOConfig, h1, h2, h3]⟩
      · by_cases h4 : config.bucketName = ""
        · exact ⟨"MINIO_BUCKET is required",
            by simp [validateMinIOConfig, h1, h2, h3, h4],
            by simp [mainStartupWith, validateMinIOConfig, h1, h2, h3, h4]⟩
        · tauto

/-- Evaluation of claim C6's theorem at a config with an empty bucket
name: validation fails and startup exits fatally. -/
theorem emptyConfig_fatal_startup_eval :
    ∃ msg,
      validateMinIOConfig ⟨"localhost:9000", "ak", "sk", false, "", "us-east-1"⟩ =
        Except.error msg ∧
      mainStartupWith ⟨"localhost:9000", "ak", "sk", false, "", "us-east-1"⟩
          (Except.ok ()) =
        StartupOutcome.fatalExit ("Failed to load MinIO configuration: " ++ msg) :=
  emptyConfig_fatal_startup
    ⟨"localhost:9000", "ak", "sk", false, "", "us-east-1"⟩ (Except.ok ())
    (Or.inr (Or.inr (Or.inr rfl)))

/-- Against the honest backend, one `ensureBucket` run always leaves the
bucket existing. -/
theorem ensureBucketStep_eq_true (s : Bool) : ensureBucketStep s = true := by
  cases s <;> rfl

/-- Against the honest backend, any number of runs starting from an
existing bucket leaves it existing. -/
theorem ensureBucketIter_of_true (n : Nat) : ensureBucketIter n true = true := by
  induction n with
  | zero => rfl
  | succ n ih => simpa [ensureBucketIter, ensureBucketStep_eq_true] using ih

/-- Claim C8: `ensureBucket` is idempotent: an existing bucket is a
successful no-op with no creation attempt (whatever creation would have
returned); `n ≥ 1` successive runs leave the bucket state exactly as one
run does; and a creation call is made only when the existence check
reported the bucket absent. -/
theorem ensureBucket_idempotent (n : Nat) (s : Bool)
    (existsResult : Except String Bool) (makeResult m : Except String Unit)
    (hn : 1 ≤ n) :
    ensureBucket (Except.ok true) m = (Except.ok (), [BucketCall.existsCall])
    ∧ ensureBucketIter n s = ensureBucketIter 1 s
    ∧ (BucketCall.makeCall ∈ (ensureBucket existsResult makeResult).2 →
        existsResult = Except.ok false) := by
  refine ⟨rfl, ?_, ?_⟩
  · obtain ⟨k, rfl⟩ : ∃ k, n = k + 1 := ⟨n - 1, by omega⟩
    show ensureBucketIter k (ensureBucketStep s) = ensureBucketIter 0 (ensureBucketStep s)
    rw [ensureBucketStep_eq_true, ensureBucketIter_of_true]
    rfl
  · intro hmem
    cases existsResult with
    | error e => simp [ensureBucket] at hmem
    | ok b =>
        cases b with
        | true => simp [ensureBucket] at hmem
        | false => rfl

/-- Evaluation of claim C8's theorem: three runs from an absent bucket
equal one run, a pre-existing bucket is a no-op, and an `ok true`
existence check never leads to a creation call. -/
theorem ensureBucket_idempotent_eval :
    ensureBucket (Except.ok true) (Except.error "create boom") =
      (Except.ok (), [BucketCall.existsCall])
    ∧ ensureBucketIter 3 false = ensureBucketIter 1 false
    ∧ (BucketCall.makeCall ∈
        (ensureBucket (Except.ok true) (Except.ok ())).2 →
        (Except.ok true : Except String Bool) = Except.ok false) :=
  ⟨(ensureBucket_idempotent 3 false (Except.ok true)
      (Except.ok ()) (Except.error "create boom") (by decide)).1,
   (ensureBucket_idempotent 3 false (Except.ok true)
      (Except.ok ()) (Except.error "create boom") (by decide)).2.1,
   (ensureBucket_idempotent 3 false (Except.ok true)
      (Except.ok ()) (Except.error "create boom") (by decide)).2.2⟩

/-! ### Concrete fixtures used to evaluate the theorems -/

/-- A plain GET request fixture for a given path. -/
def reqGet (p : String) : Request :=
  { method := "GET", path := p, queryPfx := "", queryDownload := ""
    formFile := Except.error "no such file", tempCreate := Except.ok ()
    tempCopy := Except.ok (), nowUnix := 1700000000, nowStamp := 1700000001 }

/-- An upload (POST) request fixture carrying one multipart file part. -/
def reqUpload (fn ct : String) : Request :=
  { method := "POST", path := "/upload", queryPfx := "", queryDownload := ""
    formFile := Except.ok ⟨fn, ct⟩, tempCreate := Except.ok ()
    tempCopy := Except.ok (), nowUnix := 1700000000, nowStamp := 1700000001 }

/-- A backend whose stat reports the object absent and whose other calls
succeed. -/
def bNF : Backend :=
  { statObject := fun _ => Except.error ⟨"NoSuchKey", "no such key"⟩
    putObject := fun _ _ => Except.ok ⟨10⟩
    getObject := fun _ => Except.ok [104, 105]
    listObjects := fun _ => Except.ok []
    presignedGet := fun _ => Except.ok "http://signed" }

/-- A backend whose every call fails with a transport error. -/
def bBoom : Backend :=
  { statObject := fun _ => Except.error ⟨"", "boom"⟩
    putObject := fun _ _ => Except.error "boom"
    getObject := fun _ => Except.error "boom"
    listObjects := fun _ => Except.error "boom"
    presignedGet := fun _ => Except.error "boom" }

/-- A backend on which uploads succeed but presigning fails. -/
def bNoSign : Backend :=
  { statObject := fun _ => Except.ok ()
    putObject := fun _ _ => Except.ok ⟨10⟩
    getObject := fun _ => Except.ok [104, 105]
    listObjects := fun _ => Except.ok []
    presignedGet := fun _ => Except.error "sign boom" }

/-- Claim C1: on the `/files/{key}` route, an empty extracted key yields a
400 response with no gateway call made; a stat reporting the object absent
yields 404; any other existence-check failure yields 500 with the error
detail in the message. -/
theorem getFileHandler_error_paths (r : Request) (b : Backend)
    (hm : r.method = "GET") :
    (r.path.drop 7 = "" →
      getFileHandler r b =
        (sendResponse false "Object name is required" RData.null 400, []))
    ∧ (r.path.drop 7 ≠ "" →
        (checkObjectExists (b.statObject (r.path.drop 7)) = Except.ok false →
          (getFileHandler r b).1 =
            sendResponse false "File not found" RData.null 404)
        ∧ ∀ e, checkObjectExists (b.statObject (r.path.drop 7)) =
              Except.error e →
            (getFileHandler r b).1 =
              sendResponse false ("Error checking object: " ++ e)
                RData.null 500) := by
  refine ⟨?_, ?_⟩
  · intro h0
    simp [getFileHandler, hm, h0]
  · intro hne
    refine ⟨?_, ?_⟩
    · intro hnf
      simp [getFileHandler, hm, hne, hnf]
    · intro e he
      simp [getFileHandler, hm, hne, he]

/-- Evaluation of claim C1's theorem: empty key gives a call-free 400;
an absent object gives 404; a failing stat gives 500 carrying the wrapped
error text. -/
theorem getFileHandler_error_paths_eval :
    getFileHandler (reqGet "/files/") bNF =
      (sendResponse false "Object name is required" RData.null 400, [])
    ∧ (getFileHandler (reqGet "/files/obj.txt") bNF).1 =
        sendResponse false "File not found" RData.null 404
    ∧ (getFileHandler (reqGet "/files/obj.txt") bBoom).1 =
        sendResponse false ("Error checking object: " ++
          "failed to check if object exists: boom") RData.null 500 :=
  ⟨(getFileHandler_error_paths (reqGet "/files/") bNF rfl).1 (by decide),
   ((getFileHandler_error_paths (reqGet "/files/obj.txt") bNF rfl).2
      (by decide)).1 rfl,
   ((getFileHandler_error_paths (reqGet "/files/obj.txt") bBoom rfl).2
      (by decide)).2 "failed to check if object exists: boom" rfl⟩

/-- Claim C3: when the object write succeeded, a presign failure does not
fail the upload: the handler still answers with a success envelope at
status 200 whose descriptor has an empty (omitted) URL. -/
theorem uploadHandler_presign_failure_degrades (r : Request) (b : Backend)
    (ff : FormFile) (info : UploadInfo) (e : String)
    (hm : r.method = "POST") (hff : r.formFile = Except.ok ff)
    (htc : r.tempCreate = Except.ok ()) (hcp : r.tempCopy = Except.ok ())
    (hput : b.putObject (deriveObjectName r.nowUnix ff.filename)
        (resolveContentType ff.contentType) = Except.ok info)
    (hpre : b.presignedGet (deriveObjectName r.nowUnix ff.filename) =
        Except.error e) :
    (uploadHandler r b).1 =
      sendResponse true "File uploaded successfully"
        (RData.file ⟨ff.filename, info.size,
          resolveContentType ff.contentType, "", r.nowStamp⟩) 200 := by
  simp [uploadHandler, hm, hff, htc, hcp, uploadFile, hput, getObjectURL, hpre]

/-- Evaluation of claim C3's theorem: a concrete upload whose presign step
fails still returns the 200 success envelope with an empty URL. -/
theorem uploadHandler_presign_failure_degrades_eval :
    (uploadHandler (reqUpload "a.txt" "text/plain") bNoSign).1 =
      sendResponse true "File uploaded successfully"
        (RData.file ⟨"a.txt", 10, resolveContentType "text/plain", "",
          1700000001⟩) 200 :=
  uploadHandler_presign_failure_degrades (reqUpload "a.txt" "text/plain")
    bNoSign ⟨"a.txt", "text/plain"⟩ ⟨10⟩ "sign boom" rfl rfl rfl rfl rfl rfl

/-- Claim C7: an accepted upload stores under the key
`uploads/<unix-time>-<filename>`, with the part's content type, defaulting
to `application/octet-stream` when that is empty. -/
theorem uploadHandler_key_and_content_type (r : Request) (b : Backend)
    (ff : FormFile)
    (hm : r.method = "POST") (hff : r.formFile = Except.ok ff)
    (htc : r.tempCreate = Except.ok ()) (hcp : r.tempCopy = Except.ok ()) :
    ∃ rest, (uploadHandler r b).2 =
      GatewayCall.putCall
        ("uploads/" ++ toString r.nowUnix ++ "-" ++ ff.filename)
        (if ff.contentType = "" then "application/octet-stream"
         else ff.contentType) :: rest := by
  cases hp : b.putObject
      ("uploads/" ++ toString r.nowUnix ++ "-" ++ ff.filename)
      (if ff.contentType = "" then "application/octet-stream"
       else ff.contentType) with
  | error e =>
      exact ⟨[], by
        simp [uploadHandler, hm, hff, htc, hcp, uploadFile,
          deriveObjectName, resolveContentType, hp]⟩
  | ok info =>
      exact ⟨[GatewayCall.presignCall
          ("uploads/" ++ toString r.nowUnix ++ "-" ++ ff.filename)], by
        simp [uploadHandler, hm, hff, htc, hcp, uploadFile,
          deriveObjectName, resolveContentType, hp]⟩

/-- Evaluation of claim C7's theorem: a concrete upload with a set content
type and one with an empty content type store under the timestamped key
with the expected content types. -/
theorem uploadHandler_key_and_content_type_eval :
    (∃ rest,
      (uploadHandler (reqUpload "a.txt" "text/plain") bNF).2 =
        GatewayCall.putCall
          ("uploads/" ++ toString ((1700000000 : Int)) ++ "-" ++ "a.txt")
          (if ("text/plain" : String) = "" then "application/octet-stream"
           else "text/plain") :: rest)
    ∧ ∃ rest,
      (uploadHandler (reqUpload "b.bin" "") bNF).2 =
        GatewayCall.putCall
          ("uploads/" ++ toString ((1700000000 : Int)) ++ "-" ++ "b.bin")
          (if ("" : String) = "" then "application/octet-stream"
           else "") :: rest :=
  ⟨uploadHandler_key_and_content_type (reqUpload "a.txt" "text/plain") bNF
      ⟨"a.txt", "text/plain"⟩ rfl rfl rfl rfl,
   uploadHandler_key_and_content_type (reqUpload "b.bin" "") bNF
      ⟨"b.bin", ""⟩ rfl rfl rfl rfl⟩

/-- Claim C4: a list request with no `prefix` query parameter lists under
`uploads/`, and a backend returning zero objects yields a success envelope
carrying an empty descriptor list, not an error. -/
theorem listFilesHandler_default_prefix_and_empty (r : Request) (b : Backend)
    (hm : r.method = "GET") :
    (r.queryPfx = "" →
      ∃ rest, (listFilesHandler r b).2 =
        GatewayCall.listCall "uploads/" :: rest)
    ∧ (b.listObjects (effectivePfx r.queryPfx) = Except.ok [] →
        (listFilesHandler r b).1 =
          sendResponse true "Found 0 files" (RData.files []) 200) := by
  constructor
  · intro h0
    have hpfx : effectivePfx r.queryPfx = "uploads/" := by
      simp [effectivePfx, h0]
    cases hl : b.listObjects "uploads/" with
    | error e =>
        exact ⟨[], by
          simp [listFilesHandler, hm, hpfx, listObjectsSvc, hl]⟩
    | ok objs =>
        exact ⟨objs.map (fun o => GatewayCall.presignCall o.key), by
          simp [listFilesHandler, hm, hpfx, listObjectsSvc, hl]⟩
  · intro hl
    simp [listFilesHandler, hm, listObjectsSvc, hl]
    rfl

/-- Evaluation of claim C4's theorem on a request with no `prefix`
parameter against a backend with zero objects. -/
theorem listFilesHandler_default_prefix_and_empty_eval :
    (∃ rest, (listFilesHandler (reqGet "/files") bNF).2 =
      GatewayCall.listCall "uploads/" :: rest)
    ∧ (listFilesHandler (reqGet "/files") bNF).1 =
        sendResponse true "Found 0 files" (RData.files []) 200 :=
  ⟨(listFilesHandler_default_prefix_and_empty (reqGet "/files") bNF rfl).1 rfl,
   (listFilesHandler_default_prefix_and_empty (reqGet "/files") bNF rfl).2 rfl⟩

/-- Claim C9: on a successful listing, the handler answers 200 with one
descriptor per listed object, in order, each carrying the object's base
name, size, content type and timestamp; a per-item presign failure is
discarded, leaving only that item's URL empty, while a per-item presign
success fills it. -/
theorem listFilesHandler_per_item_url (r : Request) (b : Backend)
    (objs : List ObjectInfo)
    (hm : r.method = "GET")
    (hl : b.listObjects (effectivePfx r.queryPfx) = Except.ok objs) :
    ∃ fs : List FileInfo,
      (listFilesHandler r b).1 =
        sendResponse true ("Found " ++ toString objs.length ++ " files")
          (RData.files fs) 200
      ∧ fs.length = objs.length
      ∧ ∀ i (hi : i < objs.length) (hf : i < fs.length),
          (fs.get ⟨i, hf⟩).fileName = filepathBase ((objs.get ⟨i, hi⟩).key)
          ∧ (fs.get ⟨i, hf⟩).size = (objs.get ⟨i, hi⟩).size
          ∧ (fs.get ⟨i, hf⟩).contentType = (objs.get ⟨i, hi⟩).contentType
          ∧ (fs.get ⟨i, hf⟩).uploadedAt = (objs.get ⟨i, hi⟩).lastModified
          ∧ (∀ e, b.presignedGet ((objs.get ⟨i, hi⟩).key) = Except.error e →
              (fs.get ⟨i, hf⟩).url = "")
          ∧ ∀ u, b.presignedGet ((objs.get ⟨i, hi⟩).key) = Except.ok u →
              (fs.get ⟨i, hf⟩).url = u := by
  refine ⟨objs.map (listItem b), ?_, by simp, ?_⟩
  · simp [listFilesHandler, hm, listObjectsSvc, hl]
  · intro i hi hf
    have hmap : (objs.map (listItem b)).get ⟨i, hf⟩ =
        listItem b (objs.get ⟨i, hi⟩) := by
      simp [List.get_eq_getElem, List.getElem_map]
    rw [hmap]
    refine ⟨rfl, rfl, rfl, rfl, ?_, ?_⟩
    · intro e he
      simp only [List.get_eq_getElem] at he
      simp [listItem, getObjectURL, he]
    · intro u hu
      simp only [List.get_eq_getElem] at hu
      simp [listItem, getObjectURL, hu]

/-- A backend for evaluating claim C9: two objects under `uploads/`,
presigning succeeds for the first key and fails for the second. -/
def bTwo : Backend :=
  { statObject := fun _ => Except.ok ()
    putObject := fun _ _ => Except.ok ⟨10⟩
    getObject := fun _ => Except.ok []
    listObjects := fun p =>
      if p = "uploads/" then
        Except.ok [⟨"uploads/a.txt", 3, "text/plain", 5⟩,
                   ⟨"uploads/b.txt", 4, "text/plain", 6⟩]
      else Except.ok []
    presignedGet := fun k =>
      if k = "uploads/a.txt" then Except.ok "http://signed-a"
      else Except.error "sign boom" }

/-- Evaluation of claim C9's theorem against `bTwo`: the response keeps
both objects and the claimed per-item URL behavior. -/
theorem listFilesHandler_per_item_url_eval :
    ∃ fs : List FileInfo,
      (listFilesHandler (reqGet "/files") bTwo).1 =
        sendResponse true
          ("Found " ++ toString (([⟨"uploads/a.txt", 3, "text/plain", 5⟩,
             ⟨"uploads/b.txt", 4, "text/plain", 6⟩] : List ObjectInfo).length)
            ++ " files")
          (RData.files fs) 200
      ∧ fs.length = ([⟨"uploads/a.txt", 3, "text/plain", 5⟩,
          ⟨"uploads/b.txt", 4, "text/plain", 6⟩] : List ObjectInfo).length
      ∧ ∀ i (hi : i < ([⟨"uploads/a.txt", 3, "text/plain", 5⟩,
            ⟨"uploads/b.txt", 4, "text/plain", 6⟩] : List ObjectInfo).length)
          (hf : i < fs.length),
          (fs.get ⟨i, hf⟩).fileName =
            filepathBase ((([⟨"uploads/a.txt", 3, "text/plain", 5⟩,
              ⟨"uploads/b.txt", 4, "text/plain", 6⟩] :
                List ObjectInfo).get ⟨i, hi⟩).key)
          ∧ (fs.get ⟨i, hf⟩).size =
              (([⟨"uploads/a.txt", 3, "text/plain", 5⟩,
                ⟨"uploads/b.txt", 4, "text/plain", 6⟩] :
                  List ObjectInfo).get ⟨i, hi⟩).size
          ∧ (fs.get ⟨i, hf⟩).contentType =
              (([⟨"uploads/a.txt", 3, "text/plain", 5⟩,
                ⟨"uploads/b.txt", 4, "text/plain", 6⟩] :
                  List ObjectInfo).get ⟨i, hi⟩).contentType
          ∧ (fs.get ⟨i, hf⟩).uploadedAt =
              (([⟨"uploads/a.txt", 3, "text/plain", 5⟩,
                ⟨"uploads/b.txt", 4, "text/plain", 6⟩] :
                  List ObjectInfo).get ⟨i, hi⟩).lastModified
          ∧ (∀ e, bTwo.presignedGet
                ((([⟨"uploads/a.txt", 3, "text/plain", 5⟩,
                  ⟨"uploads/b.txt", 4, "text/plain", 6⟩] :
                    List ObjectInfo).get ⟨i, hi⟩).key) = Except.error e →
              (fs.get ⟨i, hf⟩).url = "")
          ∧ ∀ u, bTwo.presignedGet
                ((([⟨"uploads/a.txt", 3, "text/plain", 5⟩,
                  ⟨"uploads/b.txt", 4, "text/plain", 6⟩] :
                    List ObjectInfo).get ⟨i, hi⟩).key) = Except.ok u →
              (fs.get ⟨i, hf⟩).url = u :=
  listFilesHandler_per_item_url (reqGet "/files") bTwo
    [⟨"uploads/a.txt", 3, "text/plain", 5⟩,
     ⟨"uploads/b.txt", 4, "text/plain", 6⟩] rfl rfl

/-! ### No handler issues a delete call -/

theorem uploadHandler_no_delete (r : Request) (b : Backend) (k : String) :
    GatewayCall.deleteCall k ∉ (uploadHandler r b).2 := by
  unfold uploadHandler
  by_cases hm : r.method ≠ "POST"
  · simp [hm]
  · cases hff : r.formFile with
    | error e => simp [hm, hff]
    | ok ff =>
      cases htc : r.tempCreate with
      | error e => simp [hm, hff, htc]
      | ok u =>
        cases hcp : r.tempCopy with
        | error e => simp [hm, hff, htc, hcp]
        | ok v =>
          cases hp : uploadFile (b.putObject (deriveObjectName r.nowUnix ff.filename)
              (resolveContentType ff.contentType)) with
          | error e => simp [hm, hff, htc, hcp, hp]
          | ok info => simp [hm, hff, htc, hcp, hp]

theorem listFilesHandler_no_delete (r : Request) (b : Backend) (k : String) :
    GatewayCall.deleteCall k ∉ (listFilesHandler r b).2 := by
  unfold listFilesHandler
  by_cases hm : r.method ≠ "GET"
  · simp [hm]
  · cases hl : listObjectsSvc (b.listObjects (effectivePfx r.queryPfx)) with
    | error e => simp [hm, hl]
    | ok objs => simp [hm, hl]

theorem getFileHandler_no_delete (r : Request) (b : Backend) (k : String) :
    GatewayCall.deleteCall k ∉ (getFileHandler r b).2 := by
  unfold getFileHandler
  by_cases hm : r.method ≠ "GET"
  · simp [hm]
  · by_cases h0 : r.path.drop 7 = ""
    · simp [hm, h0]
    · cases hs : checkObjectExists (b.statObject (r.path.drop 7)) with
      | error e => simp [hm, h0, hs]
      | ok tf =>
        cases tf with
        | false => simp [hm, h0, hs]
        | true =>
          by_cases hd : r.queryDownload = "true"
          · cases hg : downloadBuffer (b.getObject (r.path.drop 7)) with
            | error e => simp [hm, h0, hs, hd, hg]
            | ok data => simp [hm, h0, hs, hd, hg]
          · cases hu : getObjectURL (b.presignedGet (r.path.drop 7)) with
            | error e => simp [hm, h0, hs, hd, hu]
            | ok url => simp [hm, h0, hs, hd, hu]

theorem healthCheckHandler_no_delete (r : Request) (b : Backend) (k : String) :
    GatewayCall.deleteCall k ∉ (healthCheckHandler r b).2 := by
  unfold healthCheckHandler
  cases hl : listObjectsSvc (b.listObjects "") with
  | error e => simp [hl]
  | ok objs => simp [hl]

/-- No request served by the registered routes ever issues a delete call
against the backing store. -/
theorem serve_no_delete (r : Request) (b : Backend) (k : String) :
    GatewayCall.deleteCall k ∉ (serve r b).2 := by
  unfold serve
  split
  · exact uploadHandler_no_delete r b k
  · exact listFilesHandler_no_delete r b k
  · exact getFileHandler_no_delete r b k
  · exact healthCheckHandler_no_delete r b k
  · simp

/-- Claim C5, refuted: there is no HTTP request accepted by a registered
route on which the gateway's delete operation is invoked — the claimed
request does not exist. -/
theorem http_delete_exposed_false :
    (∃ (r : Request) (b : Backend) (k : String),
        GatewayCall.deleteCall k ∈ (serve r b).2) = False := by
  simp only [eq_iff_iff, iff_false]
  rintro ⟨r, b, k, hk⟩
  exact serve_no_delete r b k hk

/-- Claim C5, amended: the gateway defines a `deleteObject` operation
(wrapping the backend's remove call), but no registered HTTP route ever
invokes it; the HTTP surface does not expose deletion. -/
theorem delete_defined_but_unrouted :
    (∀ (r : Request) (b : Backend) (k : String),
        (GatewayCall.deleteCall k ∈ (serve r b).2) = False)
    ∧ (∀ e, deleteObject (Except.error e) =
        Except.error ("failed to delete object: " ++ e))
    ∧ deleteObject (Except.ok ()) = Except.ok () := by
  refine ⟨fun r b k => ?_, fun e => rfl, rfl⟩
  simp only [eq_iff_iff, iff_false]
  exact serve_no_delete r b k

end Gateway
